import Mathlib

/-!
Shallow embedding of the ldrc-common bring-up core:
the `ReadWriteLock` primitive (src/unnamed/part_000), the subsystem lifecycle
state machine and manager (`src/src/subsystem.cpp`), and the `DataThing`
publish/subscribe helper (`src/src/rwlock.h`, concatenated header portion).
-/

namespace LdrcCommon

/-- `BaseSubsystem::Status` (src/src/rwlock.h, header portion lines 65-71). -/
inductive Status where
  | INIT
  | READY
  | FAULT
  | RUNNING
  | STOPPED
deriving DecidableEq, Repr

/-- Combined state of one `ReadWriteLock` (src/unnamed/part_000): the counting
semaphore with `MAX_READERS = 8` slots, the number of slots held by readers,
the writer mutex, and the number of slots the in-progress writer has taken.
`semAvail` is the semaphore's current count; slots not available are held
either by a reader (`readers`) or by the writer loop (`writerSlots`). -/
structure RWState where
  semAvail : Nat
  readers : Nat
  mutexHeld : Bool
  writerSlots : Nat
deriving DecidableEq, Repr

/-- The freshly constructed lock: semaphore at full count 8, mutex free. -/
def RWState.start : RWState := ⟨8, 0, false, 0⟩

/-- One atomic semaphore/mutex operation of the lock API, as performed by
well-formed callers of `RLock`/`RUnlock`/`Lock`/`UnLock`:
`rlock` is the single take in `RLock`; `runlock` the give in `RUnlock`
(issued only by a reader that holds a slot); `lockMutex` the mutex take at
the head of `Lock`; `lockSlot` one iteration of the slot-taking loop in
`Lock` (only the mutex holder runs it, at most 8 times); `unlockSlot` one
iteration of the slot-giving loop in `UnLock`; `unlockMutex` the final mutex
give in `UnLock`, after all 8 slots were given back. -/
inductive RWStep : RWState → RWState → Prop where
  | rlock (s : RWState) (h : 0 < s.semAvail) :
      RWStep s ⟨s.semAvail - 1, s.readers + 1, s.mutexHeld, s.writerSlots⟩
  | runlock (s : RWState) (h : 0 < s.readers) :
      RWStep s ⟨s.semAvail + 1, s.readers - 1, s.mutexHeld, s.writerSlots⟩
  | lockMutex (s : RWState) (h : s.mutexHeld = false) :
      RWStep s ⟨s.semAvail, s.readers, true, s.writerSlots⟩
  | lockSlot (s : RWState) (h1 : s.mutexHeld = true) (h2 : s.writerSlots < 8)
      (h3 : 0 < s.semAvail) :
      RWStep s ⟨s.semAvail - 1, s.readers, true, s.writerSlots + 1⟩
  | unlockSlot (s : RWState) (h : 0 < s.writerSlots) :
      RWStep s ⟨s.semAvail + 1, s.readers, s.mutexHeld, s.writerSlots - 1⟩
  | unlockMutex (s : RWState) (h1 : s.mutexHeld = true) (h2 : s.writerSlots = 0) :
      RWStep s ⟨s.semAvail, s.readers, false, 0⟩

/-- States reachable from the freshly constructed lock by any interleaving of
lock-API operations. -/
def RWReachable (s : RWState) : Prop :=
  Relation.ReflTransGen RWStep RWState.start s

/-- Inductive invariant of the lock: the 8 slots are partitioned between the
semaphore, the readers, and the in-progress writer, and only the mutex holder
can be holding writer slots. -/
def RWInv (s : RWState) : Prop :=
  s.semAvail + s.readers + s.writerSlots = 8 ∧
  (s.mutexHeld = false → s.writerSlots = 0)

/-- Per-subsystem behavior of the virtual `setup()` / `start()` overrides:
each transforms the subsystem's own status (the collaborator contract of §6:
`Setup() -> Status`, `Start() -> Status`, acting on the owner's status). -/
structure Behavior where
  setupFn : Status → Status
  startFn : Status → Status

/-- An observable bring-up action: the manager invoking a subsystem's
`setup()` or `start()`. -/
inductive Act where
  | setupAct
  | startAct
deriving DecidableEq, Repr

/-- Global state of the bring-up walk: the status of every subsystem
(indexed by subsystem identity) and the ordered log of `setup()`/`start()`
invocations performed so far. -/
structure SysState where
  statuses : List Status
  log : List (Nat × Act)
deriving DecidableEq, Repr

/-- `BaseSubsystem::getStatus()` for subsystem `i`. -/
def getStatus (st : SysState) (i : Nat) : Status :=
  st.statuses.getD i Status.INIT

/-- Effect of `subsystem->setup()`: the subsystem updates its own status via
its `Behavior.setupFn` and the invocation is logged. -/
def doSetup (env : Nat → Behavior) (i : Nat) (st : SysState) : SysState :=
  ⟨st.statuses.set i ((env i).setupFn (getStatus st i)), st.log ++ [(i, Act.setupAct)]⟩

/-- Effect of `subsystem->start()`: the subsystem updates its own status via
its `Behavior.startFn` and the invocation is logged. -/
def doStart (env : Nat → Behavior) (i : Nat) (st : SysState) : SysState :=
  ⟨st.statuses.set i ((env i).startFn (getStatus st i)), st.log ++ [(i, Act.startAct)]⟩

/-- `SubsystemManagerClass::Spec` (src/src/rwlock.h header portion lines
303-317): one registered subsystem (`subsystem`, never null for a registered
spec) and its null-terminated dependency array, as a list. The linked-list
`next` pointers are represented by the position in the manager's spec list. -/
structure Spec where
  subsystem : Nat
  deps : List Nat
deriving DecidableEq, Repr

/-- `SubsystemManagerClass::findSpecBySubsystem` (src/src/subsystem.cpp lines
138-148): identity search over the registered list, `NULL` on miss. -/
def findSpecBySubsystem (specs : List Spec) (needle : Nat) : Option Spec :=
  match specs with
  | [] => none
  | sp :: rest =>
    if sp.subsystem = needle then some sp else findSpecBySubsystem rest needle

/-- The dependency loop of `descendAndStartOrSetup` (src/src/subsystem.cpp
lines 157-161): `for (i = 0; deps && deps[i] && depth < 8; i++)
descendAndStartOrSetup(findSpecBySubsystem(deps[i]), desiredState, depth++)`.
The post-increment passes the current `depth` to the recursive call and only
then bumps the loop-local `depth`; the `depth < 8` guard is re-checked at the
head of every iteration. `recur` is the recursive call (stepped at one less
fuel by the caller); `none` propagates fuel exhaustion. -/
def depsLoop (recur : SysState → Option Spec → Nat → Option SysState)
    (specs : List Spec) (deps : List Nat) (st : SysState) (depth : Nat) :
    Option SysState :=
  match deps with
  | [] => some st
  | d :: rest =>
    if depth < 8 then
      match recur st (findSpecBySubsystem specs d) depth with
      | none => none
      | some st' => depsLoop recur specs rest st' (depth + 1)
    else some st

/-- `SubsystemManagerClass::descendAndStartOrSetup` (src/src/subsystem.cpp
lines 150-184), fueled: `fuel` is a step index bounding the number of nested
calls (the C++ has no such bound; a result of `none` for every fuel means the
C++ call never returns). Guard: return if the registered list is `NULL`, the
spec is `NULL`, or its subsystem is `NULL` (a registered spec's subsystem is
never null, so that disjunct is not modelled). Then the dependency loop runs,
the owner's status is read, the call returns if it already equals the target
or is `FAULT`/`STOPPED`, and otherwise `setup()`/`start()` is invoked for the
`READY`/`INIT` resp. `RUNNING`/`READY` combination. -/
def descendAndStartOrSetup (env : Nat → Behavior) (fuel : Nat) (specs : List Spec)
    (st : SysState) (ospec : Option Spec) (tgt : Status) (depth : Nat) :
    Option SysState :=
  match fuel with
  | 0 => none
  | fuel' + 1 =>
    match ospec with
    | none => some st
    | some sp =>
      if specs.isEmpty then some st
      else
        match depsLoop (fun s osp dep => descendAndStartOrSetup env fuel' specs s osp tgt dep)
            specs sp.deps st depth with
        | none => none
        | some st' =>
          let status := getStatus st' sp.subsystem
          if status = tgt ∨ status = Status.FAULT ∨ status = Status.STOPPED then
            some st'
          else
            let st2 := if tgt = Status.READY ∧ status = Status.INIT then
              doSetup env sp.subsystem st' else st'
            let st3 := if tgt = Status.RUNNING ∧ status = Status.READY then
              doStart env sp.subsystem st2 else st2
            some st3

/-- The dependency loop of `descendAndStartOrSetup` with its recursive call
instantiated (at fuel `fuel` for each dependency), for stating facts about
the loop itself. -/
def descendDeps (env : Nat → Behavior) (fuel : Nat) (specs : List Spec)
    (deps : List Nat) (st : SysState) (tgt : Status) (depth : Nat) :
    Option SysState :=
  depsLoop (fun s osp dep => descendAndStartOrSetup env fuel specs s osp tgt dep)
    specs deps st depth

/-- The while-loop shared by `SubsystemManagerClass::setup` / `start`
(src/src/subsystem.cpp lines 120-123 and 130-133): walk the registered list
head to tail, invoking `descendAndStartOrSetup(spec, tgt)` on each spec with
the declaration-default depth 0. -/
def runSpecList (env : Nat → Behavior) (fuel : Nat) (specs : List Spec)
    (work : List Spec) (st : SysState) (tgt : Status) : Option SysState :=
  match work with
  | [] => some st
  | sp :: rest =>
    match descendAndStartOrSetup env fuel specs st (some sp) tgt 0 with
    | none => none
    | some st' => runSpecList env fuel specs rest st' tgt

/-- `SubsystemManagerClass::setup` (src/src/subsystem.cpp lines 100-126),
fueled; the manager's own trailing `setStatus(READY)` concerns the manager
object, not a registered subsystem, and is not part of the walk's state. -/
def managerSetup (env : Nat → Behavior) (fuel : Nat) (specs : List Spec)
    (st : SysState) : Option SysState :=
  runSpecList env fuel specs specs st Status.READY

/-- `SubsystemManagerClass::start` (src/src/subsystem.cpp lines 128-136),
fueled. -/
def managerStart (env : Nat → Behavior) (fuel : Nat) (specs : List Spec)
    (st : SysState) : Option SysState :=
  runSpecList env fuel specs specs st Status.RUNNING

/-- `SubsystemManager.setup()` followed by `SubsystemManager.start()`. -/
def runSetupThenStart (env : Nat → Behavior) (fuel : Nat) (specs : List Spec)
    (st : SysState) : Option SysState :=
  match managerSetup env fuel specs st with
  | none => none
  | some st' => managerStart env fuel specs st'

/-- `SubsystemManagerClass::addSubsystem` (src/src/subsystem.cpp lines
81-97) on an already-initialized list: a non-null spec with non-null owner is
prepended to the head. -/
def addSubsystem (specs : List Spec) (sp : Spec) : List Spec :=
  sp :: specs

/-- `DataThing::MAX_CALLBACKS` (src/src/rwlock.h header portion line 278). -/
def MAX_CALLBACKS : Nat := 8

/-- State of one `DataThing` (src/src/rwlock.h header portion lines 203-291):
the subscriber counter and the occupied prefix of the fixed `callbacks[8]`
array. Callback registrations are identified by a `Nat` tag. -/
structure DataThing where
  numCallbacks : Nat
  callbacks : List Nat
deriving DecidableEq, Repr

/-- A freshly constructed `DataThing`: `numCallbacks(0)`, no slot occupied. -/
def DataThing.empty : DataThing := ⟨0, []⟩

/-- `DataThing::registerCallback` (lines 225-239): under the write lock, if
`numCallbacks == MAX_CALLBACKS` return without touching the array (no error
is signalled — the C++ returns `void` either way); otherwise store the
registration at index `numCallbacks` and increment the counter. -/
def registerCallback (dt : DataThing) (cb : Nat) : DataThing :=
  if dt.numCallbacks = MAX_CALLBACKS then dt
  else ⟨dt.numCallbacks + 1, dt.callbacks ++ [cb]⟩

/-- `DataThing::callCallbacks` (lines 258-269): read `n = numCallbacks` under
a brief read lock, then invoke `callbacks[i]` for each `i < n`; the result is
the ordered list of callback registrations invoked. -/
def callCallbacks (dt : DataThing) : List Nat :=
  (List.range dt.numCallbacks).map (fun i => dt.callbacks.getD i 0)

/-- A sequence of `registerCallback` calls on one `DataThing`, oldest first,
starting from a freshly constructed instance. -/
def subscribeAll (regs : List Nat) : DataThing :=
  regs.foldl registerCallback DataThing.empty

/-- `TickableSubsystem::start` (src/src/subsystem.cpp lines 26-29):
`setStatus(RUNNING); return getStatus();`. Result: the stored status after
the call, and the returned status. -/
def tickableStart (st : Status) : Status × Status :=
  let st' := Status.RUNNING
  (st', st')

/-- `ThreadedSubsystem::start` (src/src/subsystem.cpp lines 36-65). Task
handles are identified by `Nat`; `none` is a null handle. `taskHandle` is the
handle field before the call and `createResult` the handle
`xTaskCreateStaticPinnedToCore` would return (`none` on creation failure).
Unless the status is `FAULT`, the creation is attempted and its result stored
in `taskHandle`; then a null `taskHandle` yields `setStatus(FAULT)` and a
non-null one `setStatus(RUNNING)`, and `getStatus()` is returned. Result:
the status after the call (also the returned one) and the final handle. -/
def threadedStart (st : Status) (taskHandle : Option Nat)
    (createResult : Option Nat) : Status × Option Nat :=
  let newHandle := if st ≠ Status.FAULT then createResult else taskHandle
  match newHandle with
  | none => (Status.FAULT, none)
  | some h => (Status.RUNNING, some h)

/-- Benign subsystem behavior: `setup()` leaves the subsystem `READY`,
`start()` leaves it `RUNNING` — the normal successful collaborator. -/
def env0 : Nat → Behavior :=
  fun _ => ⟨fun _ => Status.READY, fun _ => Status.RUNNING⟩

/-- Two-subsystem cycle: subsystem 0 depends on 1. -/
def cycleSpecA : Spec := ⟨0, [1]⟩

/-- Two-subsystem cycle: subsystem 1 depends on 0. -/
def cycleSpecB : Spec := ⟨1, [0]⟩

/-- The manager's registered list holding the two-cycle. -/
def cycleSpecs : List Spec := [cycleSpecA, cycleSpecB]

/-- Three-subsystem chain: A (id 0) depends on B (id 1). -/
def chainA : Spec := ⟨0, [1]⟩

/-- Three-subsystem chain: B (id 1) depends on C (id 2). -/
def chainB : Spec := ⟨1, [2]⟩

/-- Three-subsystem chain: C (id 2) has no dependencies. -/
def chainC : Spec := ⟨2, []⟩

/-- Both subsystems freshly constructed (`INIT`), nothing logged. -/
def st2Init : SysState := ⟨[Status.INIT, Status.INIT], []⟩

/-- All three chain subsystems freshly constructed (`INIT`), nothing logged. -/
def st3Init : SysState := ⟨[Status.INIT, Status.INIT, Status.INIT], []⟩

/-- The invocation order the 3-chain bring-up produces: C, B, A set up, then
C, B, A started. -/
def chainLog : List (Nat × Act) :=
  [(2, Act.setupAct), (1, Act.setupAct), (0, Act.setupAct),
   (2, Act.startAct), (1, Act.startAct), (0, Act.startAct)]

/-- Final state of the 3-chain bring-up: all `RUNNING`, log `chainLog`. -/
def chainFinal : SysState :=
  ⟨[Status.RUNNING, Status.RUNNING, Status.RUNNING], chainLog⟩

/-- The owner phase of `descendAndStartOrSetup` after the early-return check
failed (src/src/subsystem.cpp lines 166-183): invoke `setup()` for the
`READY`/`INIT` combination, `start()` for the `RUNNING`/`READY` one, judging
both on the status read after the dependency loop. -/
def stepOwner (env : Nat → Behavior) (j : Nat) (tgt : Status) (st : SysState) :
    SysState :=
  let status := getStatus st j
  let st2 := if tgt = Status.READY ∧ status = Status.INIT then doSetup env j st else st
  if tgt = Status.RUNNING ∧ status = Status.READY then doStart env j st2 else st2

/- ===================== Theorems ===================== -/

/-- Reading a status untouched by a `set` on another subsystem. -/
theorem getStatus_set_ne (l : List Status) (lg : List (Nat × Act)) (j i : Nat)
    (v : Status) (h : i ≠ j) :
    getStatus ⟨l.set j v, lg⟩ i = getStatus ⟨l, lg⟩ i := by
  simp [getStatus, List.getD, List.getElem?_set_ne (Ne.symm h)]

/-- `setup()` on subsystem `j` leaves every other subsystem's status alone. -/
theorem getStatus_doSetup_ne (env : Nat → Behavior) (j : Nat) (st : SysState)
    (i : Nat) (h : i ≠ j) : getStatus (doSetup env j st) i = getStatus st i := by
  simpa [doSetup] using getStatus_set_ne st.statuses (st.log ++ [(j, Act.setupAct)]) j i _ h

/-- `start()` on subsystem `j` leaves every other subsystem's status alone. -/
theorem getStatus_doStart_ne (env : Nat → Behavior) (j : Nat) (st : SysState)
    (i : Nat) (h : i ≠ j) : getStatus (doStart env j st) i = getStatus st i := by
  simpa [doStart] using getStatus_set_ne st.statuses (st.log ++ [(j, Act.startAct)]) j i _ h

/-- The owner phase touches only the owner's status. -/
theorem getStatus_stepOwner_ne (env : Nat → Behavior) (j : Nat) (tgt : Status)
    (st : SysState) (i : Nat) (h : i ≠ j) :
    getStatus (stepOwner env j tgt st) i = getStatus st i := by
  unfold stepOwner
  by_cases h2 : tgt = Status.RUNNING ∧ getStatus st j = Status.READY <;>
    by_cases h1 : tgt = Status.READY ∧ getStatus st j = Status.INIT <;>
      simp [h1, h2, getStatus_doSetup_ne, getStatus_doStart_ne, h]

/-- Unfolding `descendAndStartOrSetup` at positive fuel on a present spec in
a non-empty registry: first the dependency loop, then the early-return check
on the post-loop status, then the owner phase. -/
theorem descend_succ_unfold (env : Nat → Behavior) (fuel : Nat) (specs : List Spec)
    (st : SysState) (sp : Spec) (tgt : Status) (depth : Nat)
    (hemp : specs.isEmpty = false) :
    descendAndStartOrSetup env (fuel + 1) specs st (some sp) tgt depth =
      match descendDeps env fuel specs sp.deps st tgt depth with
      | none => none
      | some st1 =>
        if getStatus st1 sp.subsystem = tgt ∨ getStatus st1 sp.subsystem = Status.FAULT ∨
            getStatus st1 sp.subsystem = Status.STOPPED then some st1
        else some (stepOwner env sp.subsystem tgt st1) := by
  simp only [descendAndStartOrSetup, descendDeps, stepOwner, hemp, Bool.false_eq_true,
    if_false]

/-- Any state predicate preserved by the recursive call is preserved by the
dependency loop. -/
theorem depsLoop_keep (P : SysState → Prop)
    (recur : SysState → Option Spec → Nat → Option SysState)
    (hrec : ∀ s osp dep s', P s → recur s osp dep = some s' → P s')
    (specs : List Spec) :
    ∀ (deps : List Nat) (st : SysState) (depth : Nat) (st' : SysState),
      P st → depsLoop recur specs deps st depth = some st' → P st' := by
  intro deps
  induction deps with
  | nil =>
    intro st depth st' hP h
    simp only [depsLoop, Option.some.injEq] at h
    exact h ▸ hP
  | cons d rest ihd =>
    intro st depth st' hP h
    by_cases hd : depth < 8
    · rw [depsLoop, if_pos hd] at h
      cases hcall : recur st (findSpecBySubsystem specs d) depth with
      | none => rw [hcall] at h; cases h
      | some st1 =>
        rw [hcall] at h
        exact ihd st1 (depth + 1) st'
          (hrec st (findSpecBySubsystem specs d) depth st1 hP hcall) h
    · rw [depsLoop, if_neg hd] at h
      simp only [Option.some.injEq] at h
      exact h ▸ hP

/-- In the two-subsystem cycle, the recursive walk exhausts any fuel from
either spec: the post-incremented depth passed to each call's first (and
only) dependency is the caller's depth unchanged, so the `depth < 8` guard
never fails and the recursion never bottoms out. -/
theorem cycle_descend_none (env : Nat → Behavior) (fuel : Nat) :
    ∀ (st : SysState) (tgt : Status),
      descendAndStartOrSetup env fuel cycleSpecs st (some cycleSpecA) tgt 0 = none ∧
      descendAndStartOrSetup env fuel cycleSpecs st (some cycleSpecB) tgt 0 = none := by
  induction fuel with
  | zero => intro st tgt; exact ⟨rfl, rfl⟩
  | succ fuel ih =>
    intro st tgt
    constructor
    · have hB := (ih st tgt).2
      simp only [cycleSpecs, cycleSpecA, cycleSpecB] at hB
      simp [descendAndStartOrSetup, depsLoop, findSpecBySubsystem, cycleSpecs,
        cycleSpecA, cycleSpecB, hB]
    · have hA := (ih st tgt).1
      simp only [cycleSpecs, cycleSpecA, cycleSpecB] at hA
      simp [descendAndStartOrSetup, depsLoop, findSpecBySubsystem, cycleSpecs,
        cycleSpecA, cycleSpecB, hA]

/-- C1: the claim fails on the code, which is the bug: for the two-subsystem
dependency cycle (0 depends on 1 and 1 depends on 0, both registered), the
manager's `setup()` never returns — for every step budget the fueled model
runs out of fuel (`none`), because `descendAndStartOrSetup` passes the
post-incremented `depth++` (the old value) to the first dependency of every
call, so the depth bound is never reached and the recursion is infinite. -/
theorem cycle_setup_diverges (env : Nat → Behavior) (fuel : Nat) (st : SysState) :
    managerSetup env fuel cycleSpecs st = none := by
  have hA := (cycle_descend_none env fuel st Status.READY).1
  simp only [cycleSpecs] at hA
  simp [managerSetup, runSpecList, cycleSpecs, hA]

/-- C4: once a subsystem's status is `FAULT` or `STOPPED`, no invocation of
`descendAndStartOrSetup` — on any spec, for any target milestone, at any
depth — changes it: the early-return check skips a terminal owner before its
`setup()`/`start()` could run, and the owner phase of any other spec touches
only that spec's own subsystem. -/
theorem descend_terminal_unchanged (env : Nat → Behavior) (fuel : Nat)
    (specs : List Spec) (st : SysState) (ospec : Option Spec) (tgt : Status)
    (depth : Nat) (i : Nat) (st' : SysState)
    (hterm : getStatus st i = Status.FAULT ∨ getStatus st i = Status.STOPPED)
    (hrun : descendAndStartOrSetup env fuel specs st ospec tgt depth = some st') :
    getStatus st' i = getStatus st i := by
  induction fuel generalizing specs st ospec tgt depth st' with
  | zero => exact absurd hrun (by simp [descendAndStartOrSetup])
  | succ fuel ih =>
    cases ospec with
    | none =>
      simp only [descendAndStartOrSetup, Option.some.injEq] at hrun
      exact hrun ▸ rfl
    | some sp =>
      by_cases hemp : specs.isEmpty
      · simp only [descendAndStartOrSetup, hemp, if_true, Option.some.injEq] at hrun
        exact hrun ▸ rfl
      · have hemp' : specs.isEmpty = false := by
          simpa using hemp
        rw [descend_succ_unfold env fuel specs st sp tgt depth hemp'] at hrun
        cases hloop : descendDeps env fuel specs sp.deps st tgt depth with
        | none => rw [hloop] at hrun; cases hrun
        | some st1 =>
          rw [hloop] at hrun
          dsimp only at hrun
          have hkeep : getStatus st1 i = getStatus st i := by
            simp only [descendDeps] at hloop
            refine depsLoop_keep (fun s => getStatus s i = getStatus st i) _
              ?_ specs sp.deps st depth st1 rfl hloop
            intro s osp dep s' hPs hcall
            have hs := ih specs s osp tgt dep s' (by rw [hPs]; exact hterm) hcall
            rw [hs, hPs]
          by_cases hstop : getStatus st1 sp.subsystem = tgt ∨
              getStatus st1 sp.subsystem = Status.FAULT ∨
              getStatus st1 sp.subsystem = Status.STOPPED
          · rw [if_pos hstop] at hrun
            simp only [Option.some.injEq] at hrun
            exact hrun ▸ hkeep
          · rw [if_neg hstop] at hrun
            simp only [Option.some.injEq] at hrun
            by_cases hio : i = sp.subsystem
            · exfalso
              apply hstop
              rw [← hio, hkeep]
              rcases hterm with h | h
              · exact Or.inr (Or.inl h)
              · exact Or.inr (Or.inr h)
            · rw [← hrun, getStatus_stepOwner_ne env sp.subsystem tgt st1 i hio, hkeep]

/-- Witness for C4: a single registered subsystem already in `FAULT` is left
in `FAULT` by a setup walk over its spec. -/
theorem descend_terminal_unchanged_witness :
    getStatus ⟨[Status.FAULT], []⟩ 0 = getStatus ⟨[Status.FAULT], []⟩ 0 :=
  descend_terminal_unchanged env0 3 [⟨0, []⟩] ⟨[Status.FAULT], []⟩ (some ⟨0, []⟩)
    Status.READY 0 0 ⟨[Status.FAULT], []⟩ (Or.inl rfl) rfl

/-- C2 counterexample: a call with `depth = 9`, which exceeds the bound of 8,
does not return immediately: only the dependency loop is skipped, and the
owner's `setup()` is still invoked (the owner goes `INIT → READY` and the
invocation is logged). -/
theorem descend_depth9_invokes_setup :
    descendAndStartOrSetup env0 5 [⟨0, [1]⟩, ⟨1, []⟩] st2Init (some ⟨0, [1]⟩)
        Status.READY 9 =
      some ⟨[Status.READY, Status.INIT], [(0, Act.setupAct)]⟩ := by
  decide

/-- C2 amended: for every call whose `depth` is at least 8 (hence for every
depth exceeding 8), the dependency loop's `depth < 8` guard fails at its
first iteration, so the call never recurses into dependencies — it behaves
exactly as if the spec declared none — but it does not return immediately:
the owner's status check and its `setup()`/`start()` invocation still run. -/
theorem descend_depth_guard (env : Nat → Behavior) (fuel : Nat) (specs : List Spec)
    (st : SysState) (j : Nat) (deps : List Nat) (tgt : Status) (depth : Nat)
    (h8 : 8 ≤ depth) :
    descendAndStartOrSetup env (fuel + 1) specs st (some ⟨j, deps⟩) tgt depth =
      descendAndStartOrSetup env (fuel + 1) specs st (some ⟨j, []⟩) tgt depth := by
  cases deps with
  | nil => rfl
  | cons d rest =>
    have hloop : depsLoop
        (fun s osp dep => descendAndStartOrSetup env fuel specs s osp tgt dep)
        specs (d :: rest) st depth = some st := by
      rw [depsLoop]
      exact if_neg (by omega)
    simp only [descendAndStartOrSetup]
    rw [hloop]
    simp only [depsLoop]

/-- Witness for C2 amended: the depth-9 call on a spec with one dependency
computes the same result as on the dependency-free spec. -/
theorem descend_depth_guard_witness :
    descendAndStartOrSetup env0 3 [⟨0, [1]⟩, ⟨1, []⟩] st2Init (some ⟨0, [1]⟩)
        Status.READY 9 =
      descendAndStartOrSetup env0 3 [⟨0, [1]⟩, ⟨1, []⟩] st2Init (some ⟨0, []⟩)
        Status.READY 9 :=
  descend_depth_guard env0 2 [⟨0, [1]⟩, ⟨1, []⟩] st2Init 0 [1] Status.READY 9
    (by decide)

/-- C3 counterexample: subsystem 0 already holds the target status `READY`,
yet the call on its spec still recurses into its dependency (subsystem 1 is
set up, as the final state and log show) — the status check does not happen
before the recursion. -/
theorem descend_recurses_when_owner_at_target :
    descendAndStartOrSetup env0 5 [⟨0, [1]⟩, ⟨1, []⟩] ⟨[Status.READY, Status.INIT], []⟩
        (some ⟨0, [1]⟩) Status.READY 0 =
      some ⟨[Status.READY, Status.READY], [(1, Act.setupAct)]⟩ := by
  decide

/-- C3 amended: the owner's status is read only after the dependency loop:
when the post-loop status equals the target or is `FAULT`/`STOPPED`, the
call returns the loop's state with the owner untouched; and the loop passes
the post-incremented depth, so its first dependency is recursed with the
caller's `depth` unchanged and the remaining dependencies continue from
`depth + 1`. -/
theorem descend_status_after_deps (env : Nat → Behavior) (fuel : Nat)
    (specs : List Spec) (st : SysState) (j d : Nat) (rest : List Nat)
    (tgt : Status) (depth : Nat) (st1 : SysState)
    (hemp : specs.isEmpty = false) (hd : depth < 8)
    (hloop : descendDeps env fuel specs (d :: rest) st tgt depth = some st1)
    (hstop : getStatus st1 j = tgt ∨ getStatus st1 j = Status.FAULT ∨
      getStatus st1 j = Status.STOPPED) :
    descendAndStartOrSetup env (fuel + 1) specs st (some ⟨j, d :: rest⟩) tgt depth =
        some st1 ∧
      descendDeps env fuel specs (d :: rest) st tgt depth =
        (descendAndStartOrSetup env fuel specs st (findSpecBySubsystem specs d) tgt
            depth).bind
          (fun st2 => descendDeps env fuel specs rest st2 tgt (depth + 1)) := by
  constructor
  · rw [descend_succ_unfold env fuel specs st ⟨j, d :: rest⟩ tgt depth hemp]
    rw [hloop]
    exact if_pos hstop
  · cases hcall : descendAndStartOrSetup env fuel specs st (findSpecBySubsystem specs d)
        tgt depth with
    | none => simp [descendDeps, depsLoop, hd, hcall]
    | some st2 => simp [descendDeps, depsLoop, hd, hcall]

/-- Witness for C3 amended: owner 0 already `READY`; the walk on its spec
returns the post-loop state in which dependency 1 was set up, and the loop
unrolls with depth 0 passed to the first dependency. -/
theorem descend_status_after_deps_witness :
    descendAndStartOrSetup env0 5 [⟨0, [1]⟩, ⟨1, []⟩] ⟨[Status.READY, Status.INIT], []⟩
          (some ⟨0, [1]⟩) Status.READY 0 =
        some ⟨[Status.READY, Status.READY], [(1, Act.setupAct)]⟩ ∧
      descendDeps env0 4 [⟨0, [1]⟩, ⟨1, []⟩] [1] ⟨[Status.READY, Status.INIT], []⟩
          Status.READY 0 =
        (descendAndStartOrSetup env0 4 [⟨0, [1]⟩, ⟨1, []⟩] ⟨[Status.READY, Status.INIT], []⟩
            (findSpecBySubsystem [⟨0, [1]⟩, ⟨1, []⟩] 1) Status.READY 0).bind
          (fun st2 => descendDeps env0 4 [⟨0, [1]⟩, ⟨1, []⟩] [] st2 Status.READY 1) :=
  descend_status_after_deps env0 4 [⟨0, [1]⟩, ⟨1, []⟩] ⟨[Status.READY, Status.INIT], []⟩
    0 1 [] Status.READY 0 ⟨[Status.READY, Status.READY], [(1, Act.setupAct)]⟩
    rfl (by decide) (by decide) (Or.inl rfl)

/-- C5: for the chain A (id 0) depends on B (id 1) depends on C (id 2), under
the benign behavior (`setup()` yields `READY`, `start()` yields `RUNNING`),
`SubsystemManager.setup()` followed by `SubsystemManager.start()` from the
all-`INIT` state terminates with all three subsystems `RUNNING`, and the
invocation log is exactly setup of C, B, A followed by start of C, B, A —
for every one of the six possible registration orders of the spec list. -/
theorem chain_bringup_all_orders :
    runSetupThenStart env0 9 [chainA, chainB, chainC] st3Init = some chainFinal ∧
    runSetupThenStart env0 9 [chainA, chainC, chainB] st3Init = some chainFinal ∧
    runSetupThenStart env0 9 [chainB, chainA, chainC] st3Init = some chainFinal ∧
    runSetupThenStart env0 9 [chainB, chainC, chainA] st3Init = some chainFinal ∧
    runSetupThenStart env0 9 [chainC, chainA, chainB] st3Init = some chainFinal ∧
    runSetupThenStart env0 9 [chainC, chainB, chainA] st3Init = some chainFinal :=
  ⟨rfl, rfl, rfl, rfl, rfl, rfl⟩

/-- Every single lock-API operation preserves the slot-accounting invariant. -/
theorem rwInv_step {s t : RWState} (hst : RWStep s t) (hs : RWInv s) : RWInv t := by
  obtain ⟨h1, h2⟩ := hs
  cases hst with
  | rlock h => exact ⟨by dsimp only; omega, h2⟩
  | runlock h => exact ⟨by dsimp only; omega, h2⟩
  | lockMutex h => exact ⟨h1, by intro hm; cases hm⟩
  | lockSlot ha hb hc => exact ⟨by dsimp only; omega, by intro hm; cases hm⟩
  | unlockSlot h =>
    refine ⟨by dsimp only; omega, ?_⟩
    intro hm
    have := h2 hm
    dsimp only
    omega
  | unlockMutex ha hb => exact ⟨by dsimp only; omega, fun _ => rfl⟩

/-- Every state reachable from the fresh lock satisfies the invariant. -/
theorem rwInv_of_reachable (s : RWState) (h : RWReachable s) : RWInv s := by
  induction h with
  | refl => exact ⟨rfl, fun _ => rfl⟩
  | tail _ hstep ih => exact rwInv_step hstep ih

/-- C6: along any interleaving of reader and writer operations on one
`ReadWriteLock` (each acquire blocking until its semaphore/mutex operation is
permitted), whenever a thread holds the write lock — the writer loop of
`Lock()` holds all 8 reader slots — no thread holds a read slot, and the
number of threads holding read slots never exceeds 8. -/
theorem rwlock_mutual_exclusion (s : RWState) (h : RWReachable s) :
    (s.writerSlots = 8 → s.readers = 0) ∧ s.readers ≤ 8 := by
  obtain ⟨h1, _⟩ := rwInv_of_reachable s h
  constructor
  · intro h8; omega
  · omega

/-- Witness for C6: the freshly constructed lock is reachable and satisfies
both bounds. -/
theorem rwlock_mutual_exclusion_witness :
    (RWState.start.writerSlots = 8 → RWState.start.readers = 0) ∧
      RWState.start.readers ≤ 8 :=
  rwlock_mutual_exclusion RWState.start Relation.ReflTransGen.refl

/-- C7: when the current status is not `FAULT`, `ThreadedSubsystem::start()`
attempts thread creation and stores the result in `taskHandle`; a failed
creation (null handle) leaves the subsystem `FAULT`, a successful one leaves
it `RUNNING`, and the resulting stored status is what the call returns. -/
theorem threadedStart_not_fault (st : Status) (h : st ≠ Status.FAULT)
    (taskHandle createResult : Option Nat) :
    threadedStart st taskHandle createResult =
      match createResult with
      | none => (Status.FAULT, none)
      | some hh => (Status.RUNNING, some hh) := by
  cases createResult <;> simp [threadedStart, h]

/-- Witness for C7: from `INIT`, a failed creation yields `FAULT` with a null
handle. -/
theorem threadedStart_not_fault_witness :
    threadedStart Status.INIT none none = (Status.FAULT, none) :=
  threadedStart_not_fault Status.INIT (by decide) none none

/-- C10: calling `ThreadedSubsystem::start()` while the status is `FAULT`
but `taskHandle` is non-null skips thread creation entirely (the handle is
left as it was), yet the stale handle makes the null check fail, so the
status is overwritten to `RUNNING` and returned — the `FAULT` is silently
lost. -/
theorem threadedStart_fault_with_handle (h : Nat) (createResult : Option Nat) :
    threadedStart Status.FAULT (some h) createResult = (Status.RUNNING, some h) := by
  simp [threadedStart]

/-- C9: `TickableSubsystem::start()` sets the status to `RUNNING` and
returns it, whatever the prior status was. -/
theorem tickableStart_always_running (st : Status) :
    tickableStart st = (Status.RUNNING, Status.RUNNING) := rfl

/-- Folding registrations into a `DataThing` with spare capacity appends them
in order and counts them. -/
theorem subscribeAll_below (regs : List Nat) :
    ∀ dt : DataThing, dt.callbacks.length = dt.numCallbacks →
      dt.numCallbacks + regs.length ≤ 8 →
      regs.foldl registerCallback dt = ⟨dt.numCallbacks + regs.length, dt.callbacks ++ regs⟩ := by
  induction regs with
  | nil => intro dt h1 h2; simp
  | cons r rest ih =>
    intro dt h1 h2
    have hne : ¬ dt.numCallbacks = MAX_CALLBACKS := by
      simp only [MAX_CALLBACKS]
      simp only [List.length_cons] at h2
      omega
    have hstep : registerCallback dt r = ⟨dt.numCallbacks + 1, dt.callbacks ++ [r]⟩ := by
      rw [registerCallback, if_neg hne]
    rw [List.foldl_cons, hstep,
      ih ⟨dt.numCallbacks + 1, dt.callbacks ++ [r]⟩ (by simp [h1]) (by simp at h2 ⊢; omega)]
    simp only [List.append_assoc, List.singleton_append, List.length_cons]
    congr 1
    omega

/-- Once the counter sits at capacity, further registrations are no-ops. -/
theorem subscribeAll_full (regs : List Nat) :
    ∀ dt : DataThing, dt.numCallbacks = MAX_CALLBACKS →
      regs.foldl registerCallback dt = dt := by
  induction regs with
  | nil => intro dt _; rfl
  | cons r rest ih =>
    intro dt h
    rw [List.foldl_cons, registerCallback, if_pos h]
    exact ih dt h

/-- Reading a list back out element by index. -/
theorem map_getD_range (l : List Nat) :
    (List.range l.length).map (fun i => l.getD i 0) = l := by
  induction l with
  | nil => rfl
  | cons a t ih =>
    rw [List.length_cons, List.range_succ_eq_map, List.map_cons, List.map_map]
    have hcomp : ((fun i => (a :: t).getD i 0) ∘ Nat.succ) = fun i => t.getD i 0 := rfl
    rw [hcomp, ih]
    rfl

/-- C8: for any sequence of at least 8 `registerCallback` calls on one fresh
`DataThing`, the stored subscriber list is exactly the first 8 registrations:
the whole sequence has the same effect as its first 8 calls, any further
`registerCallback` is a no-op with no error signalled (it returns the state
unchanged), and a subsequent `callCallbacks` invokes exactly 8 callbacks —
the first 8 registered, in order. -/
theorem subscribe_capacity (regs : List Nat) (cb : Nat) (h : 8 ≤ regs.length) :
    subscribeAll regs = ⟨8, regs.take 8⟩ ∧
    subscribeAll regs = subscribeAll (regs.take 8) ∧
    registerCallback (subscribeAll regs) cb = subscribeAll regs ∧
    callCallbacks (subscribeAll regs) = regs.take 8 ∧
    (callCallbacks (subscribeAll regs)).length = 8 := by
  have hlen : (regs.take 8).length = 8 := by
    rw [List.length_take]
    omega
  have htake : subscribeAll (regs.take 8) = ⟨8, regs.take 8⟩ := by
    have := subscribeAll_below (regs.take 8) DataThing.empty rfl (by simp [DataThing.empty, hlen])
    simpa [subscribeAll, DataThing.empty, hlen] using this
  have hall : subscribeAll regs = ⟨8, regs.take 8⟩ := by
    have hsplit : regs = regs.take 8 ++ regs.drop 8 := (List.take_append_drop 8 regs).symm
    have htake' : (regs.take 8).foldl registerCallback DataThing.empty = ⟨8, regs.take 8⟩ :=
      htake
    conv_lhs => rw [subscribeAll, hsplit]
    rw [List.foldl_append, htake']
    exact subscribeAll_full (regs.drop 8) ⟨8, regs.take 8⟩ rfl
  refine ⟨hall, by rw [hall, htake], by rw [hall]; rfl, ?_, ?_⟩
  · rw [hall, callCallbacks]
    have : (⟨8, regs.take 8⟩ : DataThing).numCallbacks = (regs.take 8).length := by
      rw [hlen]
    rw [this]
    exact map_getD_range (regs.take 8)
  · rw [hall, callCallbacks]
    simp

/-- Witness for C8: ten registrations keep the first eight; the ninth and
later are dropped and `callCallbacks` fires exactly those eight. -/
theorem subscribe_capacity_witness :
    subscribeAll [10, 11, 12, 13, 14, 15, 16, 17, 18, 19] =
        ⟨8, [10, 11, 12, 13, 14, 15, 16, 17, 18, 19].take 8⟩ ∧
      subscribeAll [10, 11, 12, 13, 14, 15, 16, 17, 18, 19] =
        subscribeAll ([10, 11, 12, 13, 14, 15, 16, 17, 18, 19].take 8) ∧
      registerCallback (subscribeAll [10, 11, 12, 13, 14, 15, 16, 17, 18, 19]) 99 =
        subscribeAll [10, 11, 12, 13, 14, 15, 16, 17, 18, 19] ∧
      callCallbacks (subscribeAll [10, 11, 12, 13, 14, 15, 16, 17, 18, 19]) =
        [10, 11, 12, 13, 14, 15, 16, 17, 18, 19].take 8 ∧
      (callCallbacks (subscribeAll [10, 11, 12, 13, 14, 15, 16, 17, 18, 19])).length = 8 :=
  subscribe_capacity [10, 11, 12, 13, 14, 15, 16, 17, 18, 19] 99 (by decide)

end LdrcCommon
